import Mathlib

/-!
Verification of the mira-sentinel issue-automation service.

The definitions below are a shallow embedding of the Python sources under
`src/sentinel_system/`: label names and templates from `config.py` and
`services/issue_processor.py`, the proposal retrieval scan, the orchestrator
state machine, the workspace lifecycle, the GitHub client boundary
(`services/github_service.py`), the token cache
(`services/github_app_service.py`), the git driver (`services/git_service.py`)
and the webhook entry point (`routers/webhook.py`).  External effects
(subprocesses, HTTP, the filesystem) are supplied by explicit environments so
every control path of the embedded code is a value we can reason about.
-/

namespace Sentinel

/-! ### Configuration constants (`config.py`, hardcoded defaults) -/

def GITHUB_ISSUE_LABEL : String := "sentinel-analyze"

def GITHUB_PROPOSAL_LABEL : String := "proposal-pending"

def GITHUB_APPROVED_LABEL : String := "approved"

def GITHUB_WORKING_LABEL : String := "implementing"

def GIT_BRANCH_PREFIX : String := "sentinel/issue-"

/-! ### Proposal comment template and retrieval
(`issue_processor.py`, `_analyze_and_propose` lines 128-148 and
`_get_approved_proposal` lines 407-455) -/

/-- Does `needle` occur as a contiguous block at some position of `haystack`? -/
def listInfixOf (needle : List Char) : List Char → Bool
  | [] => needle.isEmpty
  | c :: rest => needle.isPrefixOf (c :: rest) || listInfixOf needle rest

/-- Python `needle in haystack` on strings. -/
def strContains (haystack needle : String) : Bool :=
  listInfixOf needle.data haystack.data

/-- The comment body posted by the propose phase
(`_analyze_and_propose`, the f-string at lines 129-145).  `timestamp` stands
for the rendered `datetime.now().strftime('%Y-%m-%d %H:%M:%S UTC')`. -/
def proposeComment (proposal timestamp : String) : String :=
  "🤖 **Sentinel System - Issue Analysis & Proposal**\n\n" ++ proposal ++
  "\n\n---\n\n**⚠️ IMPORTANT**: This is a PROPOSAL only. No code changes have been made yet.\n\n" ++
  "**Next Steps:**\n- 👍 **Approve**: Add the `" ++ GITHUB_APPROVED_LABEL ++
  "` label to proceed with implementation\n- 👎 **Request Changes**: Remove the `" ++
  GITHUB_PROPOSAL_LABEL ++
  "` label and add feedback comments\n- 🔄 **Refine**: I\x27ll update the proposal based on your feedback\n\n" ++
  "Once approved, I\x27ll implement the solution and create a pull request.\n\n*Generated at " ++
  timestamp ++ "*\n"

/-- The marker `_get_approved_proposal` looks for to recognize a system
proposal comment (line 432). -/
def proposalMarker : String := "🤖 **Sentinel System - Issue Analysis & Proposal**"

/-- The header `_get_approved_proposal` uses to start capturing the plan
section (line 439). -/
def captureHeader : String := "## My Understanding & Proposed Solution"

/-- The fallback returned when no comment yields a nonempty capture
(line 451). -/
def noProposalFallback : String :=
  "No previous proposal found. Please analyze the issue requirements and implement accordingly."

/-- Python `body.split('\n')`: split at every newline, keeping empty pieces. -/
def splitLinesAux : List Char → List Char → List (List Char)
  | [], acc => [acc.reverse]
  | c :: rest, acc =>
    if c = '\n' then acc.reverse :: splitLinesAux rest []
    else splitLinesAux rest (c :: acc)

def splitLines (body : List Char) : List (List Char) :=
  splitLinesAux body []

/-- Python `'\n'.join(lines)`. -/
def joinLines : List (List Char) → List Char
  | [] => []
  | [l] => l
  | l :: ls => l ++ '\n' :: joinLines ls

/-- Python `str.strip()` (on the whitespace the captured text can carry). -/
def stripChars (l : List Char) : List Char :=
  ((l.dropWhile Char.isWhitespace).reverse.dropWhile Char.isWhitespace).reverse

/-- The line scan inside `_get_approved_proposal` (lines 438-445): start
capturing after a line containing the capture header, stop at a line starting
with `---`. -/
def captureLoop : List (List Char) → Bool → List (List Char) → List (List Char)
  | [], _, acc => acc.reverse
  | line :: rest, capturing, acc =>
    if listInfixOf captureHeader.data line then
      captureLoop rest true acc
    else if capturing && "---".data.isPrefixOf line then
      acc.reverse
    else if capturing then
      captureLoop rest capturing (line :: acc)
    else
      captureLoop rest capturing acc

/-- Lines captured from one comment body. -/
def extractProposalLines (body : String) : List (List Char) :=
  captureLoop (splitLines body.data) false []

/-- The scan over comments from most recent to oldest (lines 430-448):
the first marker-bearing comment with a nonempty capture wins. -/
def scanComments : List String → String
  | [] => noProposalFallback
  | body :: rest =>
    if strContains body proposalMarker then
      let pls := extractProposalLines body
      if pls.isEmpty then
        scanComments rest
      else
        String.mk (stripChars (joinLines pls))
    else
      scanComments rest

/-- `IssueProcessor._get_approved_proposal` (lines 407-455) applied to the
fetched comment bodies, oldest first as the API returns them. -/
def getApprovedProposal (comments : List String) : String :=
  scanComments comments.reverse

/-- A representative cleaned analysis in the five-section format the propose
phase posts (the shape `_clean_aider_output` guarantees). -/
def sampleProposal : String :=
  "## 🔍 Problem Analysis\nThe parser rejects empty input.\n\n" ++
  "## 💡 Solution Approach\nHandle the empty case explicitly.\n\n" ++
  "## 📋 Implementation Plan\n1. Add a guard clause.\n2. Add a regression test.\n\n" ++
  "## 📁 Files to Create/Modify\n- `parser.py` - add the guard\n\n" ++
  "## ⚠️ Dependencies & Considerations\nNone."

/-! ### Orchestrator state machine (`issue_processor.py`) -/

/-- The per-issue repository state the orchestrator reads and writes. -/
structure IssueState where
  labels : List String
  comments : List String
deriving Repr, DecidableEq

/-- Observable side effects of one invocation, in order. -/
inductive Event where
  | wsCreate
  | wsCleanup
  | addComment (body : String)
  | addLabel (name : String)
  | removeLabel (name : String)
  | createPR (head : String)
deriving Repr, BEq, DecidableEq

/-- Adding a label already present leaves the set unchanged (GitHub `POST
/labels` semantics). -/
def addLabelSet (labels : List String) (l : String) : List String :=
  if l ∈ labels then labels else labels ++ [l]

/-- Removing a label via the API deletes every occurrence of that name. -/
def removeLabelSet (labels : List String) (l : String) : List String :=
  labels.filter (fun x => x ≠ l)

/-- The error comment posted by `process_issue` (line 82). -/
def errorComment (e : String) : String :=
  "🚨 **Sentinel System - Processing Error**\n\nAn error occurred while processing this issue:\n\n```\n"
    ++ e ++ "\n```\n\nPlease check the system logs for more details."

/-- The completion comment of the implement phase (lines 261-273). -/
def completionComment (implementation prUrl timestamp : String) : String :=
  "✅ **Sentinel System - Implementation Complete**\n\n## Solution Implemented\n\n" ++
  implementation ++ "\n\n## Pull Request Created\n🔗 **Pull Request:** " ++ prUrl ++
  "\n\nThe solution has been implemented and is ready for review. The PR contains all necessary changes to resolve this issue.\n\n*Completed at "
  ++ timestamp ++ "*\n"

/-- The no-changes comment of the implement phase (lines 290-301). -/
def noChangesComment (implementation timestamp : String) : String :=
  "ℹ️ **Sentinel System - No Changes Required**\n\nAfter analyzing the issue and attempting implementation, no code changes were required. This might mean:\n\n- The issue was already resolved\n- The solution doesn\x27t require code changes\n- The issue needs clarification\n\n"
  ++ implementation ++ "\n\n*Completed at " ++ timestamp ++ "*\n"

/-- `WorkspaceService.cleanup_workspace` (`workspace_service.py` lines
204-221): `shutil.rmtree(..., ignore_errors=True)` inside a try/except that
logs and swallows.  `rmtree` stands for the outcome of the underlying
recursive removal. -/
def cleanupWorkspace (rmtree : Except String Unit) : Except String Unit :=
  match rmtree with
  | .ok _ => .ok ()
  | .error _ => .ok ()

/-- The dictionary `AiderService.analyze_issue` returns: it catches its own
exceptions, so the orchestrator only sees this record. -/
structure AnalysisResult where
  success : Bool
  analysis : String
  error : String
deriving Repr, DecidableEq

/-- The dictionary `AiderService.implement_solution_legacy` returns. -/
structure ImplementResult where
  success : Bool
  implementation : String
  changesMade : Bool
  error : String
deriving Repr, DecidableEq

/-- Environment of the propose phase: the outcome of workspace creation,
cloning, the aider analysis, the phase's own repository writes (the proposal
comment at line 148, the `proposal-pending` label write at line 151, the
`sentinel-analyze` removal at line 154 — each can raise a GitHub API error),
the deletion attempted by the final cleanup, and the rendered timestamp. -/
structure ProposeEnv where
  createWs : Except String Unit
  clone : Except String Unit
  analyze : AnalysisResult
  addCommentOutcome : Except String Unit
  addLabelOutcome : Except String Unit
  removeLabelOutcome : Except String Unit
  rmtree : Except String Unit
  timestamp : String
deriving Repr

/-- Environment of the implement phase, with the outcomes of its repository
writes (the completion or no-changes comment at lines 275/303 and the
`approved` removal at lines 278/304) alongside the git and PR outcomes. -/
structure ImplementEnv where
  createWs : Except String Unit
  clone : Except String Unit
  createBranch : Except String Unit
  implementLegacy : ImplementResult
  hasChanges : Except String Bool
  commitOk : Bool
  push : Except String Unit
  prUrl : Except String String
  addCommentOutcome : Except String Unit
  removeLabelOutcome : Except String Unit
  rmtree : Except String Unit
  timestamp : String
deriving Repr

/-- The `status` field of the result dictionaries `process_issue` returns. -/
inductive Status where
  | alreadyProcessing
  | proposalCreated (proposal : String)
  | implemented (prUrl : String) (branch : String)
  | noChanges (implementation : String)
deriving Repr, DecidableEq

/-- Result of one invocation: the returned status or the raised exception,
the final repository state, and the effect trace. -/
structure PhaseOut where
  result : Except String Status
  state : IssueState
  trace : List Event
deriving Repr

/-- `IssueProcessor._analyze_and_propose` (lines 91-171): workspace creation,
clone, analysis, then the comment post, the `proposal-pending` label write
and the `sentinel-analyze` removal in source order, each of which can raise
and abort the phase with the earlier writes already applied.  The `finally`
block cleans the workspace whenever `create_workspace` returned (the
`wsCleanup` events). -/
def analyzeAndPropose (env : ProposeEnv) (st : IssueState) : PhaseOut :=
  match env.createWs with
  | .error e => ⟨.error e, st, []⟩
  | .ok _ =>
    match env.clone with
    | .error e => ⟨.error e, st, [.wsCreate, .wsCleanup]⟩
    | .ok _ =>
      if env.analyze.success then
        let proposal := env.analyze.analysis
        let c := proposeComment proposal env.timestamp
        match env.addCommentOutcome with
        | .error e => ⟨.error e, st, [.wsCreate, .wsCleanup]⟩
        | .ok _ =>
          match env.addLabelOutcome with
          | .error e =>
            ⟨.error e, ⟨st.labels, st.comments ++ [c]⟩,
             [.wsCreate, .addComment c, .wsCleanup]⟩
          | .ok _ =>
            match env.removeLabelOutcome with
            | .error e =>
              ⟨.error e,
               ⟨addLabelSet st.labels GITHUB_PROPOSAL_LABEL, st.comments ++ [c]⟩,
               [.wsCreate, .addComment c, .addLabel GITHUB_PROPOSAL_LABEL, .wsCleanup]⟩
            | .ok _ =>
              ⟨.ok (.proposalCreated proposal),
               ⟨removeLabelSet (addLabelSet st.labels GITHUB_PROPOSAL_LABEL)
                  GITHUB_ISSUE_LABEL,
                st.comments ++ [c]⟩,
               [.wsCreate, .addComment c, .addLabel GITHUB_PROPOSAL_LABEL,
                .removeLabel GITHUB_ISSUE_LABEL, .wsCleanup]⟩
      else
        ⟨.error ("Aider analysis failed: " ++ env.analyze.error), st, [.wsCreate, .wsCleanup]⟩

/-- `IssueProcessor._implement_approved_solution` (lines 173-318): workspace
creation, clone, proposal retrieval, branch creation, the aider run, change
detection, then per branch push, PR creation, the completion or no-changes
comment and the `approved` removal in source order — the repository writes
can raise and abort the phase with the earlier writes already applied. -/
def implementApproved (env : ImplementEnv) (issueNumber : Nat) (st : IssueState) : PhaseOut :=
  match env.createWs with
  | .error e => ⟨.error e, st, []⟩
  | .ok _ =>
    match env.clone with
    | .error e => ⟨.error e, st, [.wsCreate, .wsCleanup]⟩
    | .ok _ =>
      let _approvedProposal := getApprovedProposal st.comments
      let branchName := GIT_BRANCH_PREFIX ++ toString issueNumber
      match env.createBranch with
      | .error e => ⟨.error e, st, [.wsCreate, .wsCleanup]⟩
      | .ok _ =>
        if env.implementLegacy.success then
          let implementation := env.implementLegacy.implementation
          match env.hasChanges with
          | .error e => ⟨.error e, st, [.wsCreate, .wsCleanup]⟩
          | .ok hc =>
            if hc && env.implementLegacy.changesMade then
              let _commitSuccess := env.commitOk
              match env.push with
              | .error e => ⟨.error e, st, [.wsCreate, .wsCleanup]⟩
              | .ok _ =>
                match env.prUrl with
                | .error e => ⟨.error e, st, [.wsCreate, .wsCleanup]⟩
                | .ok url =>
                  let c := completionComment implementation url env.timestamp
                  match env.addCommentOutcome with
                  | .error e =>
                    ⟨.error e, st, [.wsCreate, .createPR branchName, .wsCleanup]⟩
                  | .ok _ =>
                    match env.removeLabelOutcome with
                    | .error e =>
                      ⟨.error e, ⟨st.labels, st.comments ++ [c]⟩,
                       [.wsCreate, .createPR branchName, .addComment c, .wsCleanup]⟩
                    | .ok _ =>
                      ⟨.ok (.implemented url branchName),
                       ⟨removeLabelSet st.labels GITHUB_APPROVED_LABEL,
                        st.comments ++ [c]⟩,
                       [.wsCreate, .createPR branchName, .addComment c,
                        .removeLabel GITHUB_APPROVED_LABEL, .wsCleanup]⟩
            else
              let c := noChangesComment env.implementLegacy.implementation env.timestamp
              match env.addCommentOutcome with
              | .error e => ⟨.error e, st, [.wsCreate, .wsCleanup]⟩
              | .ok _ =>
                match env.removeLabelOutcome with
                | .error e =>
                  ⟨.error e, ⟨st.labels, st.comments ++ [c]⟩,
                   [.wsCreate, .addComment c, .wsCleanup]⟩
                | .ok _ =>
                  ⟨.ok (.noChanges env.implementLegacy.implementation),
                   ⟨removeLabelSet st.labels GITHUB_APPROVED_LABEL, st.comments ++ [c]⟩,
                   [.wsCreate, .addComment c, .removeLabel GITHUB_APPROVED_LABEL,
                    .wsCleanup]⟩
        else
          ⟨.error ("Aider implementation failed: " ++ env.implementLegacy.error), st,
           [.wsCreate, .wsCleanup]⟩

/-- Both phase environments, so `process_issue` can branch on the labels. -/
structure ProcEnv where
  propose : ProposeEnv
  implement : ImplementEnv
deriving Repr

/-- The issue state after the lock label is added (line 60). -/
def lockAcquired (st : IssueState) : IssueState :=
  ⟨addLabelSet st.labels GITHUB_WORKING_LABEL, st.comments⟩

/-- The phase dispatch of `process_issue` (lines 62-69): the implement phase
runs iff the fetched labels carry `approved`. -/
def runPhase (env : ProcEnv) (issueNumber : Nat) (st : IssueState) : PhaseOut :=
  if GITHUB_APPROVED_LABEL ∈ st.labels then
    implementApproved env.implement issueNumber (lockAcquired st)
  else
    analyzeAndPropose env.propose (lockAcquired st)

/-- The tail of `process_issue` (lines 71-85): on success remove the lock
label and return; on exception remove the lock label, post the error comment
and re-raise. -/
def finalizePhase (pout : PhaseOut) : PhaseOut :=
  match pout.result with
  | .ok r =>
    ⟨.ok r,
     ⟨removeLabelSet pout.state.labels GITHUB_WORKING_LABEL, pout.state.comments⟩,
     .addLabel GITHUB_WORKING_LABEL :: (pout.trace ++ [.removeLabel GITHUB_WORKING_LABEL])⟩
  | .error e =>
    ⟨.error e,
     ⟨removeLabelSet pout.state.labels GITHUB_WORKING_LABEL,
      pout.state.comments ++ [errorComment e]⟩,
     .addLabel GITHUB_WORKING_LABEL ::
       (pout.trace ++ [.removeLabel GITHUB_WORKING_LABEL, .addComment (errorComment e)])⟩

/-- `IssueProcessor.process_issue` (lines 31-89): mutual-exclusion check,
lock acquisition, phase dispatch on the `approved` label, lock release on the
success path, and lock release plus error comment on the exception path. -/
def processIssue (env : ProcEnv) (issueNumber : Nat) (st : IssueState) : PhaseOut :=
  if GITHUB_WORKING_LABEL ∈ st.labels then
    ⟨.ok .alreadyProcessing, st, []⟩
  else
    finalizePhase (runPhase env issueNumber st)

/-! ### Repository client (`github_service.py`) -/

/-- Authentication mode chosen at startup (lines 26-41): GitHub App, or the
legacy personal-access-token mode bound to one configured repository. -/
inductive AuthMode where
  | githubApp
  | legacy (repo : String)
deriving Repr, DecidableEq

def baseUrl : String := "https://api.github.com"

/-- `GitHubService._get_repo_for_request` (lines 70-86): GitHub App mode
requires the argument; legacy mode returns the configured repository and
ignores the argument. -/
def getRepoForRequest : AuthMode → Option String → Except String String
  | .githubApp, none => .error "Repository parameter required in GitHub App mode"
  | .githubApp, some r => .ok r
  | .legacy repo, _ => .ok repo

/-- URL of `get_issue` (line 154). -/
def getIssueUrl (m : AuthMode) (issueNumber : Nat) (repository : Option String) :
    Except String String :=
  (getRepoForRequest m repository).map
    (fun repo => baseUrl ++ "/repos/" ++ repo ++ "/issues/" ++ toString issueNumber)

/-- URL of `get_issues` (line 122). -/
def getIssuesUrl (m : AuthMode) (repository : Option String) : Except String String :=
  (getRepoForRequest m repository).map (fun repo => baseUrl ++ "/repos/" ++ repo ++ "/issues")

/-- URL of `add_comment` (line 187). -/
def addCommentUrl (m : AuthMode) (issueNumber : Nat) (repository : Option String) :
    Except String String :=
  (getRepoForRequest m repository).map
    (fun repo => baseUrl ++ "/repos/" ++ repo ++ "/issues/" ++ toString issueNumber ++ "/comments")

/-- URL of `add_label` (line 218). -/
def addLabelUrl (m : AuthMode) (issueNumber : Nat) (repository : Option String) :
    Except String String :=
  (getRepoForRequest m repository).map
    (fun repo => baseUrl ++ "/repos/" ++ repo ++ "/issues/" ++ toString issueNumber ++ "/labels")

/-- URL of `remove_label` (line 246). -/
def removeLabelUrl (m : AuthMode) (issueNumber : Nat) (label : String)
    (repository : Option String) : Except String String :=
  (getRepoForRequest m repository).map
    (fun repo =>
      baseUrl ++ "/repos/" ++ repo ++ "/issues/" ++ toString issueNumber ++ "/labels/" ++ label)

/-- URL of `get_labels` (line 277). -/
def getLabelsUrl (m : AuthMode) (repository : Option String) : Except String String :=
  (getRepoForRequest m repository).map (fun repo => baseUrl ++ "/repos/" ++ repo ++ "/labels")

/-- URL of `create_pull_request` (line 324). -/
def createPullRequestUrl (m : AuthMode) (repository : Option String) : Except String String :=
  (getRepoForRequest m repository).map (fun repo => baseUrl ++ "/repos/" ++ repo ++ "/pulls")

/-- `GitHubService.get_clone_url` (lines 368-383). -/
def getCloneUrl : AuthMode → String → String
  | .githubApp, repository => "https://github.com/" ++ repository ++ ".git"
  | .legacy repo, _ => "https://github.com/" ++ repo ++ ".git"

/-- httpx `Response.raise_for_status`: raises exactly on non-2xx statuses. -/
def raiseForStatus (status : Nat) : Except Nat Unit :=
  if 200 ≤ status ∧ status < 300 then .ok () else .error status

/-- `GitHubService.remove_label` (lines 232-260): a 200/204/404 response is
accepted outright; anything else goes through `raise_for_status`, and the
resulting status error is re-raised unless it is 404. -/
def removeLabelRequestOutcome (status : Nat) : Except Nat Unit :=
  if status = 200 ∨ status = 204 ∨ status = 404 then .ok ()
  else
    match raiseForStatus status with
    | .ok _ => .ok ()
    | .error s => if s ≠ 404 then .error s else .ok ()

/-- Remote semantics of `DELETE /repos/R/issues/N/labels/NAME`: 200 with the
label removed when present, 404 with the issue untouched when absent. -/
def serverRemoveLabel (labels : List String) (name : String) : Nat × List String :=
  if name ∈ labels then (200, removeLabelSet labels name) else (404, labels)

/-- One full `remove_label` call against the modeled remote: the issue's
resulting label set, or the propagated error status. -/
def removeLabelCall (labels : List String) (name : String) : Except Nat (List String) :=
  let response := serverRemoveLabel labels name
  match removeLabelRequestOutcome response.1 with
  | .ok _ => .ok response.2
  | .error s => .error s

/-! ### Version control driver (`git_service.py`) -/

/-- The git subprocess boundary of `_run_git_command` (lines 24-66): each
argument list either exits 0 with its (stripped) stdout or exits non-zero, in
which case the wrapper raises with the stderr message. -/
structure GitWorld where
  run : List String → Except String String

/-- `GitService.get_current_branch` (lines 68-83). -/
def getCurrentBranch (w : GitWorld) : Except String String :=
  (w.run ["branch", "--show-current"]).map (fun out => out.trim)

/-- `GitService.has_changes` (lines 116-143): staged, unstaged and untracked
queries; any nonempty output means changes. -/
def hasChangesGit (w : GitWorld) : Except String Bool := do
  let staged ← w.run ["diff", "--cached", "--name-only"]
  let unstaged ← w.run ["diff", "--name-only"]
  let untracked ← w.run ["ls-files", "--others", "--exclude-standard"]
  return !(staged.isEmpty && unstaged.isEmpty && untracked.isEmpty)

/-- `GitService.create_branch` (lines 85-114): stash dirty state, check out
and update the base branch, then branch; every git failure re-raises. -/
def createBranchGit (w : GitWorld) (branchName fromBranch : String) : Except String Unit := do
  let hc ← hasChangesGit w
  if hc then
    let _ ← w.run ["stash", "push", "-m", "Auto-stash before creating branch " ++ branchName]
  let _ ← w.run ["checkout", fromBranch]
  let _ ← w.run ["pull", "origin", fromBranch]
  let _ ← w.run ["checkout", "-b", branchName]
  return ()

/-- The body of `GitService.commit_changes` (lines 183-197) before its
try/except: porcelain status, then add and commit when the tree is dirty. -/
def commitChangesTry (w : GitWorld) (message : String) : Except String Bool := do
  let statusOut ← w.run ["status", "--porcelain"]
  if statusOut.trim.isEmpty then
    return false
  else
    let _ ← w.run ["add", "."]
    let _ ← w.run ["commit", "-m", message]
    return true

/-- `GitService.commit_changes` (lines 160-201): the whole body is wrapped in
a try/except that returns `False` on any exception, so a failing git
subprocess is converted into the no-commit result instead of propagating. -/
def commitChanges (w : GitWorld) (message : String) : Bool :=
  match commitChangesTry w message with
  | .ok b => b
  | .error _ => false

/-- `GitService.push_branch` (lines 203-223). -/
def pushBranch (w : GitWorld) (branchName remote : String) : Except String Unit := do
  let _ ← w.run ["push", "-u", remote, branchName]
  return ()

/-! ### Credential router (`github_app_service.py`) -/

/-- The claims of the signed app assertion (lines 86-91). -/
structure JwtPayload where
  iat : Int
  exp : Int
  iss : String
deriving Repr, DecidableEq

/-- `GitHubAppService.generate_jwt_token` payload: issued-at 60s in the past
for clock skew, expiry 10 minutes ahead, issuer the app id. -/
def generateJwtPayload (now : Int) (appId : String) : JwtPayload :=
  { iat := now - 60, exp := now + 10 * 60, iss := appId }

/-- A cached installation token with its expiry (seconds). -/
structure CachedToken where
  token : String
  expiresAt : Int
deriving Repr, DecidableEq

/-- The cache key `f"installation_&#123;id&#125;"` (line 117) with the brace
characters of the Python f-string elided. -/
def cacheKey (installationId : Nat) : String :=
  "installation_" ++ toString installationId

/-- The remote token-exchange endpoint (lines 133-162): given the signed
assertion it yields a fresh installation token and expiry, or fails. -/
structure TokenExchange where
  exchange : JwtPayload → Except String (String × Int)

/-- The refresh path of `get_installation_token` (lines 130-158): sign a new
assertion, exchange it, and cache the result under the installation key. -/
def refreshInstallationToken (ex : TokenExchange) (appId : String) (now : Int)
    (cache : List (String × CachedToken)) (key : String) :
    Except String (String × List (String × CachedToken)) :=
  match ex.exchange (generateJwtPayload now appId) with
  | .ok (token, expiresAt) => .ok (token, (key, ⟨token, expiresAt⟩) :: cache)
  | .error e => .error e

/-- `GitHubAppService.get_installation_token` (lines 102-167): a cached token
is returned iff it expires more than 5 minutes after `now`; otherwise the
stale entry is dropped and a fresh token is obtained and cached. -/
def getInstallationToken (ex : TokenExchange) (appId : String) (now : Int)
    (cache : List (String × CachedToken)) (installationId : Nat) :
    Except String (String × List (String × CachedToken)) :=
  let key := cacheKey installationId
  match cache.lookup key with
  | some cached =>
    if cached.expiresAt > now + 5 * 60 then
      .ok (cached.token, cache)
    else
      refreshInstallationToken ex appId now (cache.filter (fun kv => kv.1 ≠ key)) key
  | none => refreshInstallationToken ex appId now cache key

/-! ### Webhook boundary (`routers/webhook.py`) -/

/-- `verify_webhook_signature` (lines 99-128).  `hmacHex` stands for
HMAC-SHA256 of the raw body under the secret rendered as hex;
`hmac.compare_digest` computes equality of the two digests (its constant-time
execution has no observable counterpart in a functional embedding). -/
def verifyWebhookSignature (hmacHex : String → String → String)
    (payload signature secret : String) : Bool :=
  if signature.data.isEmpty || secret.data.isEmpty then false
  else if "sha256=".data.isPrefixOf signature.data then
    hmacHex secret payload == String.mk (signature.data.drop 7)
  else false

/-- The fields `github_webhook` extracts from the parsed payload (lines
219-224), with Python `dict.get` defaults. -/
structure EventData where
  action : Option String
  issueNumber : Option Nat
  labelName : Option String
  repoFullName : Option String
deriving Repr, DecidableEq

/-- What the endpoint answers: a normal response or a raised HTTP error. -/
inductive WebhookResult where
  | response (status : String) (processed : Bool)
  | httpError (statusCode : Nat)
deriving Repr, DecidableEq

/-- The endpoint's answer plus whether a background task was scheduled. -/
structure WebhookOutcome where
  result : WebhookResult
  backgroundScheduled : Bool
deriving Repr, DecidableEq

/-- `github_webhook` after signature verification (lines 165-282): payload
parsing, ping handling, event/action/label filtering, and finally the
`background_tasks.add_task` call.  `parse` stands for `json.loads` plus field
extraction; `repoAccessible` for `validate_repository_access`. -/
def githubWebhookAfterAuth (parse : String → Option EventData) (ghEvent payload : String)
    (repoAccessible : String → Bool) : WebhookOutcome :=
  if payload = "" then ⟨.response "ignored" false, false⟩
  else
    match parse payload with
    | none => ⟨.httpError 400, false⟩
    | some ev =>
      if ghEvent = "ping" then ⟨.response "pong" false, false⟩
      else if ghEvent ≠ "issues" then ⟨.response "ignored" false, false⟩
      else
        match ev.issueNumber with
        | none => ⟨.httpError 400, false⟩
        | some _n =>
          match ev.repoFullName with
          | none => ⟨.httpError 400, false⟩
          | some repo =>
            if repoAccessible repo = false then ⟨.httpError 403, false⟩
            else
              let action := ev.action.getD ""
              if action ≠ "labeled" ∧ action ≠ "unlabeled" then
                ⟨.response "ignored" false, false⟩
              else
                let labelName := ev.labelName.getD ""
                if labelName ∈ [GITHUB_ISSUE_LABEL, GITHUB_APPROVED_LABEL,
                    GITHUB_PROPOSAL_LABEL, GITHUB_WORKING_LABEL] then
                  ⟨.response "received" true, true⟩
                else ⟨.response "ignored" false, false⟩

/-- `github_webhook` (lines 131-288): when a webhook secret is configured the
signature header is demanded and verified before anything else. -/
def githubWebhook (hmacHex : String → String → String)
    (parse : String → Option EventData) (secret ghEvent : String)
    (signatureHeader : Option String) (payload : String)
    (repoAccessible : String → Bool) : WebhookOutcome :=
  if secret ≠ "" then
    match signatureHeader with
    | none => ⟨.httpError 401, false⟩
    | some sig =>
      if verifyWebhookSignature hmacHex payload sig secret then
        githubWebhookAfterAuth parse ghEvent payload repoAccessible
      else ⟨.httpError 401, false⟩
  else githubWebhookAfterAuth parse ghEvent payload repoAccessible

/-! ### Concrete environments used as witnesses -/

/-- An environment in which every external step succeeds. -/
def sampleProposeEnv : ProposeEnv :=
  { createWs := .ok (), clone := .ok (), analyze := ⟨true, sampleProposal, ""⟩,
    addCommentOutcome := .ok (), addLabelOutcome := .ok (),
    removeLabelOutcome := .ok (), rmtree := .ok (),
    timestamp := "2025-06-01 10:00:00 UTC" }

def sampleImplementEnv : ImplementEnv :=
  { createWs := .ok (), clone := .ok (), createBranch := .ok (),
    implementLegacy := ⟨true, "Added the guard clause.", true, ""⟩,
    hasChanges := .ok true, commitOk := true, push := .ok (),
    prUrl := .ok "https://github.com/o/r/pull/1", addCommentOutcome := .ok (),
    removeLabelOutcome := .ok (), rmtree := .ok (),
    timestamp := "2025-06-01 10:00:00 UTC" }

def sampleEnv : ProcEnv := ⟨sampleProposeEnv, sampleImplementEnv⟩

/-- An environment whose workspace creation fails. -/
def failingProposeEnv : ProposeEnv :=
  { sampleProposeEnv with createWs := .error "disk full" }

def failingEnv : ProcEnv := ⟨failingProposeEnv, sampleImplementEnv⟩

/-- A propose-phase environment whose final label write — the
`remove_label(sentinel-analyze)` of line 154 — raises after the proposal
comment (line 148) and the `proposal-pending` label write (line 151)
succeeded. -/
def labelWriteFailProposeEnv : ProposeEnv :=
  { sampleProposeEnv with removeLabelOutcome := .error "GitHub API error: 500" }

def labelWriteFailEnv : ProcEnv := ⟨labelWriteFailProposeEnv, sampleImplementEnv⟩

/-- All repository writes issued by the phase bodies succeed, so a raised
phase exception can only come from an earlier step (workspace, clone, aider,
git, PR creation). -/
def phaseWritesSucceed (env : ProcEnv) : Prop :=
  env.propose.addCommentOutcome = .ok () ∧ env.propose.addLabelOutcome = .ok () ∧
  env.propose.removeLabelOutcome = .ok () ∧ env.implement.addCommentOutcome = .ok () ∧
  env.implement.removeLabelOutcome = .ok ()

/-! ### Helper lemmas -/

theorem not_mem_removeLabelSet (labels : List String) (l : String) :
    l ∉ removeLabelSet labels l := by
  simp [removeLabelSet]

theorem removeLabelSet_addLabelSet (labels : List String) (l : String) :
    removeLabelSet (addLabelSet labels l) l = removeLabelSet labels l := by
  unfold addLabelSet removeLabelSet
  split
  · rfl
  · simp

/-- When the propose phase's own repository writes all succeed, its error
exits leave the issue state untouched. -/
theorem analyzeAndPropose_error_state (env : ProposeEnv) (st : IssueState) (e : String)
    (hw1 : env.addCommentOutcome = .ok ()) (hw2 : env.addLabelOutcome = .ok ())
    (hw3 : env.removeLabelOutcome = .ok ())
    (h : (analyzeAndPropose env st).result = .error e) :
    (analyzeAndPropose env st).state = st := by
  revert h
  unfold analyzeAndPropose
  rcases env with ⟨cw, cl, an, ac, al, rl, rm, ts⟩
  dsimp only at hw1 hw2 hw3
  subst hw1 hw2 hw3
  rcases cw with e1 | u1 <;> rcases cl with e2 | u2 <;> rcases an with ⟨s, a, err⟩ <;>
    cases s <;> simp

/-- When the implement phase's own repository writes all succeed, its error
exits leave the issue state untouched. -/
theorem implementApproved_error_state (env : ImplementEnv) (n : Nat) (st : IssueState)
    (e : String)
    (hw1 : env.addCommentOutcome = .ok ()) (hw2 : env.removeLabelOutcome = .ok ())
    (h : (implementApproved env n st).result = .error e) :
    (implementApproved env n st).state = st := by
  revert h
  unfold implementApproved
  rcases env with ⟨cw, cl, cb, il, hc, co, pu, pr, ac, rl, rm, ts⟩
  dsimp only at hw1 hw2
  subst hw1 hw2
  rcases cw with e1 | u1 <;> rcases cl with e2 | u2 <;> rcases cb with e3 | u3 <;>
    rcases il with ⟨s, impl, ch, err⟩ <;> cases s <;> rcases hc with e4 | b4 <;>
    rcases pu with e5 | u5 <;> rcases pr with e6 | url <;> try simp
  all_goals cases b4 <;> cases ch <;> simp

/-- Error exits of the phase dispatch leave the issue state at the
lock-acquired state, provided the phases' repository writes succeed. -/
theorem runPhase_error_state (env : ProcEnv) (n : Nat) (st : IssueState) (e : String)
    (hws : phaseWritesSucceed env)
    (h : (runPhase env n st).result = .error e) :
    (runPhase env n st).state = lockAcquired st := by
  unfold runPhase at h ⊢
  by_cases ha : GITHUB_APPROVED_LABEL ∈ st.labels
  · rw [if_pos ha] at h ⊢
    exact implementApproved_error_state env.implement n (lockAcquired st) e
      hws.2.2.2.1 hws.2.2.2.2 h
  · rw [if_neg ha] at h ⊢
    exact analyzeAndPropose_error_state env.propose (lockAcquired st) e
      hws.1 hws.2.1 hws.2.2.1 h

/-! ### Claim theorems -/

set_option maxRecDepth 10000 in
/-- Claim C1 (code bug): the round-trip of a proposal through issue comments
fails on the code.  The comment posted by the propose phase contains the
proposal verbatim, yet the implement phase's retrieval scan looks for the
capture header "## My Understanding & Proposed Solution", which the propose
phase never emits, so it returns its hardcoded fallback instead of the plan
section. -/
theorem proposal_roundtrip_returns_fallback :
    strContains (proposeComment sampleProposal "2025-06-01 10:00:00 UTC") sampleProposal
        = true ∧
    getApprovedProposal [proposeComment sampleProposal "2025-06-01 10:00:00 UTC"]
        = noProposalFallback ∧
    noProposalFallback ≠ sampleProposal := by
  exact ⟨by decide, by decide, by decide⟩

/-- Claim C2 as stated is false: an invocation on an issue already carrying
the lock label completes normally (returning `already_processing`) while the
lock label is still present on the issue. -/
theorem working_label_persists_counterexample :
    (processIssue sampleEnv 42 ⟨[GITHUB_WORKING_LABEL], []⟩).result
        = .ok .alreadyProcessing ∧
    GITHUB_WORKING_LABEL ∈
      (processIssue sampleEnv 42 ⟨[GITHUB_WORKING_LABEL], []⟩).state.labels := by
  exact ⟨rfl, by decide⟩

/-- Claim C2 amended: every invocation whose initial label set does not carry
the lock label (that is, every invocation that actually attempts processing
instead of returning `already_processing`) ends with the lock label absent,
on normal return and on exception alike. -/
theorem processIssue_releases_lock (env : ProcEnv) (n : Nat) (st : IssueState)
    (h : GITHUB_WORKING_LABEL ∉ st.labels) :
    GITHUB_WORKING_LABEL ∉ (processIssue env n st).state.labels := by
  unfold processIssue
  rw [if_neg h]
  unfold finalizePhase
  split <;> exact not_mem_removeLabelSet _ _

theorem processIssue_releases_lock_witness :
    GITHUB_WORKING_LABEL ∉ ([GITHUB_ISSUE_LABEL] : List String) ∧
    GITHUB_WORKING_LABEL ∉
      (processIssue sampleEnv 42 ⟨[GITHUB_ISSUE_LABEL], []⟩).state.labels :=
  ⟨by decide, processIssue_releases_lock sampleEnv 42 ⟨[GITHUB_ISSUE_LABEL], []⟩ (by decide)⟩

/-- Claim C3 as stated is false: when the propose phase's final label write
(the `remove_label(sentinel-analyze)` of issue_processor.py line 154) raises
after the proposal comment (line 148) and the `proposal-pending` label write
(line 151) succeeded, the exception is re-raised but the final label set is
the pre-invocation set plus `proposal-pending` minus the lock — not the
pre-invocation set minus the lock as the claim requires. -/
theorem error_atomicity_counterexample :
    (processIssue labelWriteFailEnv 7 ⟨[GITHUB_ISSUE_LABEL], []⟩).result
        = .error "GitHub API error: 500" ∧
    (processIssue labelWriteFailEnv 7 ⟨[GITHUB_ISSUE_LABEL], []⟩).state.labels
        = [GITHUB_ISSUE_LABEL, GITHUB_PROPOSAL_LABEL] ∧
    (processIssue labelWriteFailEnv 7 ⟨[GITHUB_ISSUE_LABEL], []⟩).state.labels
        ≠ removeLabelSet [GITHUB_ISSUE_LABEL] GITHUB_WORKING_LABEL := by
  refine ⟨rfl, by decide, by decide⟩

/-- Claim C3 amended: any exception raised in either phase removes the lock
label, posts (as the newest comment) an error comment containing the failure
detail, and re-raises the exception; when the exception was raised before the
phase's own label writes (that is, when every phase repository write
succeeds, so the failure came from workspace creation, cloning, the
assistant, git or PR creation), the final label set is additionally the
pre-invocation set minus the lock and the error comment is the only new
comment.  A failure in a later phase label write can instead leave the
phase's earlier writes in place. -/
theorem processIssue_error_reporting (env : ProcEnv) (n : Nat) (st : IssueState) (e : String)
    (h : (processIssue env n st).result = .error e) :
    GITHUB_WORKING_LABEL ∉ (processIssue env n st).state.labels ∧
    (processIssue env n st).state.comments.getLast? = some (errorComment e) ∧
    e.data <:+: (errorComment e).data ∧
    (phaseWritesSucceed env →
      (processIssue env n st).state.labels
          = removeLabelSet st.labels GITHUB_WORKING_LABEL ∧
      (processIssue env n st).state.comments = st.comments ++ [errorComment e]) := by
  by_cases hw : GITHUB_WORKING_LABEL ∈ st.labels
  · exfalso
    unfold processIssue at h
    rw [if_pos hw] at h
    exact Except.noConfusion h
  · unfold processIssue at h ⊢
    rw [if_neg hw] at h ⊢
    rcases hr : (runPhase env n st).result with e' | r
    · have hst0 : phaseWritesSucceed env → (runPhase env n st).state = lockAcquired st :=
        fun hws => runPhase_error_state env n st e' hws hr
      unfold finalizePhase at h ⊢
      rw [hr] at h ⊢
      cases h
      refine ⟨not_mem_removeLabelSet _ _, ?_, ?_, fun hws => ?_⟩
      · simp
      · exact ⟨"🚨 **Sentinel System - Processing Error**\n\nAn error occurred while processing this issue:\n\n```\n".data,
          "\n```\n\nPlease check the system logs for more details.".data, by
            simp [errorComment, String.data_append]⟩
      · have hst := hst0 hws
        constructor
        · simp [hst, lockAcquired, removeLabelSet_addLabelSet]
        · simp [hst, lockAcquired]
    · exfalso
      unfold finalizePhase at h
      rw [hr] at h
      exact Except.noConfusion h

theorem processIssue_error_reporting_witness :
    GITHUB_WORKING_LABEL ∉
      (processIssue failingEnv 7 ⟨[GITHUB_ISSUE_LABEL], []⟩).state.labels ∧
    (processIssue failingEnv 7 ⟨[GITHUB_ISSUE_LABEL], []⟩).state.comments.getLast?
        = some (errorComment "disk full") ∧
    (processIssue failingEnv 7 ⟨[GITHUB_ISSUE_LABEL], []⟩).state.labels
        = removeLabelSet [GITHUB_ISSUE_LABEL] GITHUB_WORKING_LABEL ∧
    (processIssue failingEnv 7 ⟨[GITHUB_ISSUE_LABEL], []⟩).state.comments
        = [] ++ [errorComment "disk full"] :=
  have happ := processIssue_error_reporting failingEnv 7 ⟨[GITHUB_ISSUE_LABEL], []⟩
    "disk full" rfl
  ⟨happ.1, happ.2.1, (happ.2.2.2 ⟨rfl, rfl, rfl, rfl, rfl⟩).1,
   (happ.2.2.2 ⟨rfl, rfl, rfl, rfl, rfl⟩).2⟩

/-- Claim C4: an invocation on an issue already carrying the lock label
returns `already_processing` and performs no repository mutation (no label
change, no comment, no pull request) and no workspace creation. -/
theorem processIssue_already_processing (env : ProcEnv) (n : Nat) (st : IssueState)
    (h : GITHUB_WORKING_LABEL ∈ st.labels) :
    processIssue env n st = ⟨.ok .alreadyProcessing, st, []⟩ := by
  unfold processIssue
  rw [if_pos h]

theorem processIssue_already_processing_witness :
    GITHUB_WORKING_LABEL ∈ ([GITHUB_WORKING_LABEL, GITHUB_APPROVED_LABEL] : List String) ∧
    processIssue sampleEnv 42 ⟨[GITHUB_WORKING_LABEL, GITHUB_APPROVED_LABEL], ["c"]⟩
        = ⟨.ok .alreadyProcessing, ⟨[GITHUB_WORKING_LABEL, GITHUB_APPROVED_LABEL], ["c"]⟩, []⟩ :=
  ⟨by decide, processIssue_already_processing sampleEnv 42
    ⟨[GITHUB_WORKING_LABEL, GITHUB_APPROVED_LABEL], ["c"]⟩ (by decide)⟩

/-- Claim C5: in every phase execution the number of workspace creations
equals the number of workspace cleanups (one per successful creation, on
every exit path), the cleanup itself never raises regardless of the outcome
of the underlying deletion, and the deletion outcome never changes the
phase's primary result. -/
theorem workspace_lifecycle_pairing :
    (∀ r : Except String Unit, cleanupWorkspace r = .ok ()) ∧
    (∀ (env : ProposeEnv) (st : IssueState),
      (analyzeAndPropose env st).trace.count Event.wsCreate
        = (analyzeAndPropose env st).trace.count Event.wsCleanup) ∧
    (∀ (env : ImplementEnv) (n : Nat) (st : IssueState),
      (implementApproved env n st).trace.count Event.wsCreate
        = (implementApproved env n st).trace.count Event.wsCleanup) ∧
    (∀ (env : ProposeEnv) (r₁ r₂ : Except String Unit) (st : IssueState),
      analyzeAndPropose { env with rmtree := r₁ } st
        = analyzeAndPropose { env with rmtree := r₂ } st) ∧
    (∀ (env : ImplementEnv) (r₁ r₂ : Except String Unit) (n : Nat) (st : IssueState),
      implementApproved { env with rmtree := r₁ } n st
        = implementApproved { env with rmtree := r₂ } n st) := by
  refine ⟨fun r => ?_, fun env st => ?_, fun env n st => ?_, fun env r₁ r₂ st => ?_,
    fun env r₁ r₂ n st => ?_⟩
  · cases r <;> rfl
  · unfold analyzeAndPropose
    rcases env with ⟨cw, cl, an, ac, al, rl, rm, ts⟩
    rcases cw with e1 | u1 <;> rcases cl with e2 | u2 <;> rcases an with ⟨s, a, err⟩ <;>
      cases s <;> rcases ac with e7 | u7 <;> rcases al with e8 | u8 <;>
      rcases rl with e9 | u9 <;> rfl
  · unfold implementApproved
    rcases env with ⟨cw, cl, cb, il, hc, co, pu, pr, ac, rl, rm, ts⟩
    rcases cw with e1 | u1 <;> rcases cl with e2 | u2 <;> rcases cb with e3 | u3 <;>
      rcases il with ⟨s, impl, ch, err⟩ <;> cases s <;> rcases hc with e4 | b4 <;>
      rcases pu with e5 | u5 <;> rcases pr with e6 | url <;>
      rcases ac with e7 | u7 <;> rcases rl with e8 | u8 <;> try rfl
    all_goals cases b4 <;> cases ch <;> rfl
  · rcases env with ⟨cw, cl, an, ac, al, rl, rm, ts⟩
    rfl
  · rcases env with ⟨cw, cl, cb, il, hc, co, pu, pr, ac, rl, rm, ts⟩
    rfl

/-- Claim C6: removing an absent label succeeds silently with the issue
unchanged (the not-found status is swallowed), while every other error status
from the remote propagates as an error carrying that status. -/
theorem remove_label_idempotent (labels : List String) (name : String)
    (habs : name ∉ labels) :
    removeLabelCall labels name = .ok labels ∧
    (∀ status : Nat, 400 ≤ status → status ≠ 404 →
      removeLabelRequestOutcome status = .error status) := by
  constructor
  · unfold removeLabelCall serverRemoveLabel
    rw [if_neg habs]
    rfl
  · intro status h4 hne
    unfold removeLabelRequestOutcome raiseForStatus
    rw [if_neg (show ¬(status = 200 ∨ status = 204 ∨ status = 404) by omega),
        if_neg (show ¬(200 ≤ status ∧ status < 300) by omega)]
    simp [hne]

theorem remove_label_idempotent_witness :
    GITHUB_ISSUE_LABEL ∉ ([GITHUB_APPROVED_LABEL] : List String) ∧
    removeLabelCall [GITHUB_APPROVED_LABEL] GITHUB_ISSUE_LABEL
        = .ok [GITHUB_APPROVED_LABEL] ∧
    removeLabelRequestOutcome 403 = .error 403 :=
  ⟨by decide,
   (remove_label_idempotent [GITHUB_APPROVED_LABEL] GITHUB_ISSUE_LABEL (by decide)).1,
   (remove_label_idempotent [GITHUB_APPROVED_LABEL] GITHUB_ISSUE_LABEL (by decide)).2
     403 (by decide) (by decide)⟩

/-- A git world in which the porcelain status query exits non-zero. -/
def failingStatusWorld : GitWorld :=
  ⟨fun args =>
    if args = ["status", "--porcelain"] then .error "fatal: not a git repository"
    else .ok ""⟩

/-- Claim C7 as stated is false at `commit_changes`: with the porcelain
status subprocess failing, `commit_changes` returns the non-error result
`false` instead of propagating the failure, because its whole body sits in a
try/except that converts any exception into `False`. -/
theorem commit_changes_swallows_counterexample :
    failingStatusWorld.run ["status", "--porcelain"]
        = .error "fatal: not a git repository" ∧
    commitChanges failingStatusWorld "Implement solution for issue #7" = false := by
  exact ⟨rfl, rfl⟩

/-- Claim C7 amended: the current-branch query, change detection, branch
creation and push propagate any non-zero git exit to the caller without local
retry, but `commit_changes` catches its git failures and returns the
non-error result `false` instead of propagating them. -/
theorem git_failures_propagate_except_commit :
    (∀ (w : GitWorld) (e : String), w.run ["branch", "--show-current"] = .error e →
      getCurrentBranch w = .error e) ∧
    (∀ (w : GitWorld) (e : String), w.run ["diff", "--cached", "--name-only"] = .error e →
      hasChangesGit w = .error e) ∧
    (∀ (w : GitWorld) (b f e : String), hasChangesGit w = .ok false →
      w.run ["checkout", f] = .error e → createBranchGit w b f = .error e) ∧
    (∀ (w : GitWorld) (b r e : String), w.run ["push", "-u", r, b] = .error e →
      pushBranch w b r = .error e) ∧
    (∀ (w : GitWorld) (m e : String), w.run ["status", "--porcelain"] = .error e →
      commitChanges w m = false) := by
  refine ⟨?_, ?_, ?_, ?_, ?_⟩
  · intro w e h
    simp [getCurrentBranch, h, Except.map]
  · intro w e h
    simp [hasChangesGit, h, Bind.bind, Except.bind]
  · intro w b f e h1 h2
    simp [createBranchGit, h1, h2, Bind.bind, Except.bind, Pure.pure, Except.pure]
  · intro w b r e h
    simp [pushBranch, h, Bind.bind, Except.bind]
  · intro w m e h
    simp [commitChanges, commitChangesTry, h, Bind.bind, Except.bind]

/-- A git world in which every subprocess fails. -/
def brokenGitWorld : GitWorld := ⟨fun _ => .error "boom"⟩

/-- A git world that is clean but cannot check out the base branch. -/
def checkoutFailWorld : GitWorld :=
  ⟨fun args => if args = ["checkout", "main"] then .error "boom" else .ok ""⟩

theorem git_failures_propagate_except_commit_witness :
    getCurrentBranch brokenGitWorld = .error "boom" ∧
    hasChangesGit brokenGitWorld = .error "boom" ∧
    createBranchGit checkoutFailWorld "sentinel/issue-7" "main" = .error "boom" ∧
    pushBranch brokenGitWorld "sentinel/issue-7" "origin" = .error "boom" ∧
    commitChanges brokenGitWorld "msg" = false :=
  ⟨git_failures_propagate_except_commit.1 brokenGitWorld "boom" rfl,
   git_failures_propagate_except_commit.2.1 brokenGitWorld "boom" rfl,
   git_failures_propagate_except_commit.2.2.1 checkoutFailWorld "sentinel/issue-7" "main"
     "boom" rfl rfl,
   git_failures_propagate_except_commit.2.2.2.1 brokenGitWorld "sentinel/issue-7" "origin"
     "boom" rfl,
   git_failures_propagate_except_commit.2.2.2.2 brokenGitWorld "msg" "boom" rfl⟩

/-- Claim C8: a cached installation token is returned exactly when its expiry
is more than 5 minutes in the future; otherwise a freshly signed assertion
with issued-at now−60s, expiry now+10min and issuer the app identity is
exchanged and the new token is stored in the cache under the installation
key. -/
theorem installation_token_cache_policy (ex : TokenExchange) (appId : String)
    (now : Int) (cache : List (String × CachedToken)) (id : Nat) :
    (∀ cached : CachedToken, cache.lookup (cacheKey id) = some cached →
      (cached.expiresAt > now + 5 * 60 →
        getInstallationToken ex appId now cache id = .ok (cached.token, cache)) ∧
      (¬ cached.expiresAt > now + 5 * 60 →
        ∀ (tok : String) (expAt : Int),
          ex.exchange ⟨now - 60, now + 10 * 60, appId⟩ = .ok (tok, expAt) →
          getInstallationToken ex appId now cache id
            = .ok (tok, (cacheKey id, ⟨tok, expAt⟩) ::
                cache.filter (fun kv => kv.1 ≠ cacheKey id)) ∧
          ((cacheKey id, (⟨tok, expAt⟩ : CachedToken)) ::
              cache.filter (fun kv => kv.1 ≠ cacheKey id)).lookup (cacheKey id)
            = some ⟨tok, expAt⟩)) ∧
    (cache.lookup (cacheKey id) = none →
      ∀ (tok : String) (expAt : Int),
        ex.exchange ⟨now - 60, now + 10 * 60, appId⟩ = .ok (tok, expAt) →
        getInstallationToken ex appId now cache id
          = .ok (tok, (cacheKey id, ⟨tok, expAt⟩) :: cache) ∧
        ((cacheKey id, (⟨tok, expAt⟩ : CachedToken)) :: cache).lookup (cacheKey id)
          = some ⟨tok, expAt⟩) ∧
    generateJwtPayload now appId = ⟨now - 60, now + 10 * 60, appId⟩ := by
  refine ⟨fun cached hl => ⟨fun hfresh => ?_, fun hstale tok expAt hex => ⟨?_, ?_⟩⟩,
    fun hmiss tok expAt hex => ⟨?_, ?_⟩, rfl⟩
  · simp only [getInstallationToken]
    rw [hl]
    dsimp only
    rw [if_pos hfresh]
  · simp only [getInstallationToken]
    rw [hl]
    dsimp only
    rw [if_neg hstale]
    unfold refreshInstallationToken generateJwtPayload
    rw [hex]
  · simp [List.lookup]
  · simp only [getInstallationToken]
    rw [hmiss]
    dsimp only
    unfold refreshInstallationToken generateJwtPayload
    rw [hex]
  · simp [List.lookup]

/-- A token-exchange endpoint that always yields the same fresh token. -/
def sampleExchange : TokenExchange := ⟨fun _ => .ok ("fresh-token", 4000)⟩

theorem installation_token_cache_policy_witness :
    ([(("installation_5" : String), (⟨"cached-token", 4000⟩ : CachedToken))].lookup
        (cacheKey 5) = some ⟨"cached-token", 4000⟩) ∧
    ((4000 : Int) > 0 + 5 * 60) ∧
    getInstallationToken sampleExchange "app" 0
        [("installation_5", ⟨"cached-token", 4000⟩)] 5
      = .ok ("cached-token", [("installation_5", ⟨"cached-token", 4000⟩)]) :=
  ⟨by decide, by decide,
   ((installation_token_cache_policy sampleExchange "app" 0
       [("installation_5", ⟨"cached-token", 4000⟩)] 5).1
     ⟨"cached-token", 4000⟩ (by decide)).1 (by decide)⟩

/-- Nonempty strings have nonempty character data. -/
theorem string_data_isEmpty_eq_false (s : String) (h : s ≠ "") : s.data.isEmpty = false := by
  cases s with
  | mk data =>
    cases data with
    | nil => exact absurd rfl h
    | cons c cs => rfl

/-- Claim C9: with a webhook secret configured, a missing signature header, a
header without the `sha256=` prefix, or a digest mismatch on the raw body is
rejected with a 401 client error and no background task is scheduled. -/
theorem webhook_rejects_invalid_signature (hmacHex : String → String → String)
    (parse : String → Option EventData) (secret ghEvent payload : String)
    (repoAccessible : String → Bool) (hsec : secret ≠ "") :
    (githubWebhook hmacHex parse secret ghEvent none payload repoAccessible
        = ⟨.httpError 401, false⟩) ∧
    (∀ sig : String, "sha256=".data.isPrefixOf sig.data = false →
      githubWebhook hmacHex parse secret ghEvent (some sig) payload repoAccessible
        = ⟨.httpError 401, false⟩) ∧
    (∀ sig : String, hmacHex secret payload ≠ String.mk (sig.data.drop 7) →
      githubWebhook hmacHex parse secret ghEvent (some sig) payload repoAccessible
        = ⟨.httpError 401, false⟩) := by
  refine ⟨?_, fun sig hpre => ?_, fun sig hne => ?_⟩
  · unfold githubWebhook
    rw [if_pos hsec]
  · have hv : verifyWebhookSignature hmacHex payload sig secret = false := by
      by_cases hs : sig.data.isEmpty
      · simp [verifyWebhookSignature, hs]
      · simp [verifyWebhookSignature, hs, string_data_isEmpty_eq_false secret hsec, hpre]
    unfold githubWebhook
    rw [if_pos hsec]
    simp [hv]
  · have hv : verifyWebhookSignature hmacHex payload sig secret = false := by
      by_cases hs : sig.data.isEmpty
      · simp [verifyWebhookSignature, hs]
      · by_cases hp : "sha256=".data.isPrefixOf sig.data
        · simp [verifyWebhookSignature, hs, hp, hne]
        · simp [verifyWebhookSignature, hs, hp]
    unfold githubWebhook
    rw [if_pos hsec]
    simp [hv]

theorem webhook_rejects_invalid_signature_witness :
    (("s" : String) ≠ "") ∧
    githubWebhook (fun _ _ => "aaaa") (fun _ => none) "s" "issues" none "p" (fun _ => true)
      = ⟨.httpError 401, false⟩ ∧
    githubWebhook (fun _ _ => "aaaa") (fun _ => none) "s" "issues" (some "nohex") "p"
        (fun _ => true)
      = ⟨.httpError 401, false⟩ ∧
    githubWebhook (fun _ _ => "aaaa") (fun _ => none) "s" "issues" (some "sha256=bbbb") "p"
        (fun _ => true)
      = ⟨.httpError 401, false⟩ :=
  ⟨by decide,
   (webhook_rejects_invalid_signature (fun _ _ => "aaaa") (fun _ => none) "s" "issues" "p"
     (fun _ => true) (by decide)).1,
   (webhook_rejects_invalid_signature (fun _ _ => "aaaa") (fun _ => none) "s" "issues" "p"
     (fun _ => true) (by decide)).2.1 "nohex" (by decide),
   (webhook_rejects_invalid_signature (fun _ _ => "aaaa") (fun _ => none) "s" "issues" "p"
     (fun _ => true) (by decide)).2.2 "sha256=bbbb" (by decide)⟩

/-- Claim C10: in legacy single-token mode every repository-client operation
targets the statically configured repository, for every value of the
repository argument. -/
theorem legacy_mode_ignores_repository_argument (repo : String) (n : Nat)
    (label : String) (r : Option String) (s : String) :
    getIssueUrl (.legacy repo) n r
        = .ok (baseUrl ++ "/repos/" ++ repo ++ "/issues/" ++ toString n) ∧
    getIssuesUrl (.legacy repo) r = .ok (baseUrl ++ "/repos/" ++ repo ++ "/issues") ∧
    addCommentUrl (.legacy repo) n r
        = .ok (baseUrl ++ "/repos/" ++ repo ++ "/issues/" ++ toString n ++ "/comments") ∧
    addLabelUrl (.legacy repo) n r
        = .ok (baseUrl ++ "/repos/" ++ repo ++ "/issues/" ++ toString n ++ "/labels") ∧
    removeLabelUrl (.legacy repo) n label r
        = .ok (baseUrl ++ "/repos/" ++ repo ++ "/issues/" ++ toString n ++ "/labels/" ++ label) ∧
    getLabelsUrl (.legacy repo) r = .ok (baseUrl ++ "/repos/" ++ repo ++ "/labels") ∧
    createPullRequestUrl (.legacy repo) r = .ok (baseUrl ++ "/repos/" ++ repo ++ "/pulls") ∧
    getCloneUrl (.legacy repo) s = "https://github.com/" ++ repo ++ ".git" :=
  ⟨rfl, rfl, rfl, rfl, rfl, rfl, rfl, rfl⟩

end Sentinel
